import Mathlib

/-!
Verification of the trade-monitoring core of the SPOT-TRADING-AI-AGENT
repository (TradeMonitoringService, src/TRADE-MONITORING-IMPLEMENTATION.md,
lines 1225-1876).

Shallow embedding conventions:
* JavaScript numbers (prices, amounts) are embedded as rationals.
* JavaScript Date values are embedded as integers (epoch milliseconds).
* Optional / nullable fields are embedded as Option.
* The JavaScript a || b fallback idiom is embedded by explicit helpers
  that treat undefined, 0 and the empty string as falsy.
* The source keeps entryAmount as a decimal string and applies parseFloat
  at exit time; the embedding carries the parsed rational directly.
-/

namespace SpotTrading

/-- Trade direction, the signalMessage field ("buy" | "sell"), line 1240. -/
inductive Side
  | buy
  | sell
deriving DecidableEq, Repr

/-- Position status ("active" | "exited" | "failed"), line 1256. -/
inductive TradeStatus
  | active
  | exited
  | failed
deriving DecidableEq, Repr

/-- interface MonitoredTrade, lines 1232-1266. -/
structure MonitoredTrade where
  _id : String
  tradeId : String
  userId : String
  safeAddress : String
  networkKey : String
  tokenSymbol : String
  tokenMentioned : String
  signalMessage : Side
  entryPrice : ℚ
  currentPrice : Option ℚ
  tp1 : ℚ
  tp2 : ℚ
  sl : ℚ
  maxExitTime : ℤ
  entryTxHash : String
  entryAmount : ℚ
  executedAt : ℤ
  status : TradeStatus
  lastPriceCheck : Option ℤ
  priceCheckCount : ℕ
  highestPriceSinceEntry : ℚ
  trailingStopPrice : ℚ
  trailingStopEnabled : Bool
deriving DecidableEq, Repr

/-- Exit-condition labels, interface ExitCondition, line 1269. -/
inductive ExitType
  | TP1
  | TP2
  | STOP_LOSS
  | MAX_EXIT_TIME
  | TRAILING_STOP
deriving DecidableEq, Repr

/-- interface ExitCondition, lines 1268-1273. -/
structure ExitCondition where
  type : ExitType
  currentPrice : ℚ
  targetPrice : Option ℚ
  triggered : Bool
deriving DecidableEq, Repr

/-- checkExitConditions, lines 1595-1701.  now is the Date taken at entry
to the function; the evaluation order is exactly the source's: max exit
time, then per side trailing stop (when enabled), stop loss, tp2, tp1,
and a non-triggered TP1-labelled record when nothing fired. -/
def checkExitConditions (trade : MonitoredTrade) (currentPrice : ℚ) (now : ℤ) : ExitCondition :=
  if now ≥ trade.maxExitTime then
    { type := ExitType.MAX_EXIT_TIME, currentPrice := currentPrice,
      targetPrice := none, triggered := true }
  else
    match trade.signalMessage with
    | Side.buy =>
        if trade.trailingStopEnabled = true ∧ currentPrice ≤ trade.trailingStopPrice then
          { type := ExitType.TRAILING_STOP, currentPrice := currentPrice,
            targetPrice := some trade.trailingStopPrice, triggered := true }
        else if currentPrice ≤ trade.sl then
          { type := ExitType.STOP_LOSS, currentPrice := currentPrice,
            targetPrice := some trade.sl, triggered := true }
        else if currentPrice ≥ trade.tp2 then
          { type := ExitType.TP2, currentPrice := currentPrice,
            targetPrice := some trade.tp2, triggered := true }
        else if currentPrice ≥ trade.tp1 then
          { type := ExitType.TP1, currentPrice := currentPrice,
            targetPrice := some trade.tp1, triggered := true }
        else
          { type := ExitType.TP1, currentPrice := currentPrice,
            targetPrice := none, triggered := false }
    | Side.sell =>
        if trade.trailingStopEnabled = true ∧ currentPrice ≥ trade.trailingStopPrice then
          { type := ExitType.TRAILING_STOP, currentPrice := currentPrice,
            targetPrice := some trade.trailingStopPrice, triggered := true }
        else if currentPrice ≥ trade.sl then
          { type := ExitType.STOP_LOSS, currentPrice := currentPrice,
            targetPrice := some trade.sl, triggered := true }
        else if currentPrice ≤ trade.tp2 then
          { type := ExitType.TP2, currentPrice := currentPrice,
            targetPrice := some trade.tp2, triggered := true }
        else if currentPrice ≤ trade.tp1 then
          { type := ExitType.TP1, currentPrice := currentPrice,
            targetPrice := none, triggered := true }
        else
          { type := ExitType.TP1, currentPrice := currentPrice,
            targetPrice := none, triggered := false }

/-- The exit kinds named by the specification's priority table. -/
inductive SpecExitKind
  | max_exit_time
  | trailing_stop
  | stop_loss
  | tp2
  | tp1
deriving DecidableEq, Repr

/-- Modelled from the spec: the chosen exit kind as the first true
condition in the fixed priority order of the claim (max exit time;
trailing stop when enabled; stop loss; tp2; tp1; otherwise none), with
the buy predicates and their sell mirrors as listed there. -/
def chosenExitKindSpec (trade : MonitoredTrade) (price : ℚ) (now : ℤ) : Option SpecExitKind :=
  if now ≥ trade.maxExitTime then some SpecExitKind.max_exit_time
  else
    match trade.signalMessage with
    | Side.buy =>
        if trade.trailingStopEnabled = true ∧ price ≤ trade.trailingStopPrice then
          some SpecExitKind.trailing_stop
        else if price ≤ trade.sl then some SpecExitKind.stop_loss
        else if price ≥ trade.tp2 then some SpecExitKind.tp2
        else if price ≥ trade.tp1 then some SpecExitKind.tp1
        else none
    | Side.sell =>
        if trade.trailingStopEnabled = true ∧ price ≥ trade.trailingStopPrice then
          some SpecExitKind.trailing_stop
        else if price ≥ trade.sl then some SpecExitKind.stop_loss
        else if price ≤ trade.tp2 then some SpecExitKind.tp2
        else if price ≤ trade.tp1 then some SpecExitKind.tp1
        else none

/-- Map a source exit-condition label to the specification kind. -/
def specKindOf : ExitType → SpecExitKind
  | ExitType.TP1 => SpecExitKind.tp1
  | ExitType.TP2 => SpecExitKind.tp2
  | ExitType.STOP_LOSS => SpecExitKind.stop_loss
  | ExitType.MAX_EXIT_TIME => SpecExitKind.max_exit_time
  | ExitType.TRAILING_STOP => SpecExitKind.trailing_stop

/-- The exit decision carried by an ExitCondition: the kind when it
triggered, nothing otherwise. -/
def exitDecision (c : ExitCondition) : Option SpecExitKind :=
  if c.triggered = true then some (specKindOf c.type) else none

/-- C2: for every monitored position, current price and current time, the
exit kind chosen by checkExitConditions is the pure deterministic function
given by the first true condition in fixed priority order: max_exit_time
when now is at or past maxExitTime; trailing_stop (only when enabled) when
the price crosses the trailing stop on the position's side; then
stop_loss; then tp2; then tp1; and no exit fires when none of these
holds. -/
theorem c2_priority_determinism (trade : MonitoredTrade) (price : ℚ) (now : ℤ) :
    exitDecision (checkExitConditions trade price now) = chosenExitKindSpec trade price now := by
  obtain ⟨_, _, _, _, _, _, _, side, _, _, _, _, _, _, _, _, _, _, _, _, _, _, _⟩ := trade
  cases side <;>
    simp only [checkExitConditions, chosenExitKindSpec, exitDecision, specKindOf] <;>
    split_ifs <;> first | rfl | simp_all

/-- JavaScript a || b for an optional number: undefined and 0 are falsy. -/
def jsOrQ : Option ℚ → ℚ → ℚ
  | some x, y => if x = 0 then y else x
  | none, y => y

/-- JavaScript a || b for an optional string: undefined and "" are falsy. -/
def jsOrS : Option String → String → String
  | some x, y => if x = "" then y else x
  | none, y => y

/-- JavaScript a || b for an optional date (epoch milliseconds): undefined
and the zero date are falsy. -/
def jsOrZ : Option ℤ → ℤ → ℤ
  | some x, y => if x = 0 then y else x
  | none, y => y

/-- The exitData document written on a successful exit, lines 1734-1756 of
executeTradeExit: P&L from entryValue and exitValue at the condition's
currentPrice, then the record with the condition's type.  now is the Date
taken for exitedAt. -/
structure ExitData where
  exitType : ExitType
  exitPrice : ℚ
  exitAmount : ℚ
  profitLoss : ℚ
  exitedAt : ℤ
deriving DecidableEq, Repr

/-- P&L computation and exitData construction of executeTradeExit,
lines 1734-1750.  The source stores entryAmount as a decimal string and
applies parseFloat here; the embedding carries the parsed rational. -/
def exitDataOf (trade : MonitoredTrade) (exitCondition : ExitCondition) (now : ℤ) : ExitData :=
  let entryValue := trade.entryAmount * trade.entryPrice
  let exitValue := trade.entryAmount * exitCondition.currentPrice
  let profitLoss :=
    if trade.signalMessage = Side.buy then exitValue - entryValue else entryValue - exitValue
  { exitType := exitCondition.type
    exitPrice := exitCondition.currentPrice
    exitAmount := trade.entryAmount
    profitLoss := profitLoss
    exitedAt := now }

/-- C3: the recorded profitLoss of a position closed at the condition's
currentPrice equals entryAmount times (exitPrice minus entryPrice) for a
buy and entryAmount times (entryPrice minus exitPrice) for a sell; and an
exit at exactly the entry price always records profitLoss zero. -/
theorem c3_profit_loss_law (trade : MonitoredTrade) (cond : ExitCondition) (now : ℤ) :
    (exitDataOf trade cond now).profitLoss =
      (if trade.signalMessage = Side.buy then
        trade.entryAmount * (cond.currentPrice - trade.entryPrice)
      else
        trade.entryAmount * (trade.entryPrice - cond.currentPrice)) ∧
    (exitDataOf trade { cond with currentPrice := trade.entryPrice } now).profitLoss = 0 := by
  unfold exitDataOf
  constructor
  · split_ifs <;> simp <;> ring
  · split_ifs <;> simp

/-- The shape of an active-trade document read back from the durable
store, with the fields the rehydration sites read (lines 1356-1382 and
1400-1431); fields the source guards with || fallbacks are optional. -/
structure StoredTrade where
  _id : String
  tradeId : String
  userId : String
  safeAddress : String
  networkKey : String
  tokenSymbol : Option String
  tokenMentioned : String
  signalMessage : Side
  entryPrice : Option ℚ
  currentPrice : ℚ
  tp1 : ℚ
  tp2 : ℚ
  sl : ℚ
  maxExitTime : ℤ
  entryTxHash : Option String
  entryAmount : Option ℚ
  executedAt : Option ℤ
  createdAt : ℤ
  status : TradeStatus
deriving DecidableEq, Repr

/-- Rehydration of a stored active trade into a MonitoredTrade: the
construction of loadActiveTradesFromDatabase, lines 1359-1382, which is
repeated verbatim in syncWithDatabase, lines 1408-1431.  Both sites set
highestPriceSinceEntry to entryPrice-or-currentPrice and trailingStopPrice
to that value times 0.99 with no case on the side. -/
def rehydrateTrade (trade : StoredTrade) : MonitoredTrade :=
  { _id := trade._id
    tradeId := trade.tradeId
    userId := trade.userId
    safeAddress := trade.safeAddress
    networkKey := trade.networkKey
    tokenSymbol := jsOrS trade.tokenSymbol trade.tokenMentioned
    tokenMentioned := trade.tokenMentioned
    signalMessage := trade.signalMessage
    entryPrice := jsOrQ trade.entryPrice trade.currentPrice
    currentPrice := none
    tp1 := trade.tp1
    tp2 := trade.tp2
    sl := trade.sl
    maxExitTime := trade.maxExitTime
    entryTxHash := jsOrS trade.entryTxHash ""
    entryAmount := jsOrQ trade.entryAmount 0
    executedAt := jsOrZ trade.executedAt trade.createdAt
    status := trade.status
    lastPriceCheck := none
    priceCheckCount := 0
    highestPriceSinceEntry := jsOrQ trade.entryPrice trade.currentPrice
    trailingStopPrice := jsOrQ trade.entryPrice trade.currentPrice * (99 / 100)
    trailingStopEnabled := true }

/-- A stored active sell position with entry price 100, used to probe the
rehydration initialization on the sell side. -/
def storedSell : StoredTrade :=
  { _id := "p4"
    tradeId := "t4"
    userId := "u"
    safeAddress := "safe"
    networkKey := "arbitrum"
    tokenSymbol := some "TKN"
    tokenMentioned := "TKN"
    signalMessage := Side.sell
    entryPrice := some 100
    currentPrice := 100
    tp1 := 95
    tp2 := 90
    sl := 105
    maxExitTime := 3600000
    entryTxHash := some "0xabc"
    entryAmount := some 1
    executedAt := some 0
    createdAt := 0
    status := TradeStatus.active }

/-- C4 counterexample: rehydrating a stored sell position with entry price
100 initializes trailingStopPrice to 99, that is entryPrice times 0.99,
not entryPrice times (1 + 0.01) = 101 as the claim states for a sell. -/
theorem c4_sell_init_counterexample :
    storedSell.signalMessage = Side.sell ∧
    (rehydrateTrade storedSell).trailingStopPrice = 99 ∧
    (99 : ℚ) ≠ 100 * (1 + 1 / 100) := by
  refine ⟨rfl, ?_, by norm_num⟩
  norm_num [rehydrateTrade, jsOrQ, storedSell]

/-- C4 amended: whenever the engine rehydrates a stored active position
(at Start and in the database-sync adoption path), it initializes
highestFavorablePrice to entryPrice and trailingStopPrice to entryPrice
times (1 - epsilon) with epsilon = 0.01 for both buy and sell positions;
the 0.99 multiplier is applied with no case on the side. -/
theorem c4_rehydrate_init (trade : StoredTrade) (e : ℚ)
    (hsome : trade.entryPrice = some e) (hnz : e ≠ 0) :
    (rehydrateTrade trade).highestPriceSinceEntry = e ∧
    (rehydrateTrade trade).trailingStopPrice = e * (1 - 1 / 100) := by
  have hjs : jsOrQ trade.entryPrice trade.currentPrice = e := by
    rw [hsome]
    simp [jsOrQ, hnz]
  constructor
  · show jsOrQ trade.entryPrice trade.currentPrice = e
    exact hjs
  · show jsOrQ trade.entryPrice trade.currentPrice * (99 / 100) = e * (1 - 1 / 100)
    rw [hjs]
    norm_num

/-- C4 witness: the amended initialization evaluated on the concrete
stored sell position with entry price 100. -/
theorem c4_rehydrate_init_witness :
    (rehydrateTrade storedSell).highestPriceSinceEntry = 100 ∧
    (rehydrateTrade storedSell).trailingStopPrice = 100 * (1 - 1 / 100) :=
  c4_rehydrate_init storedSell 100 rfl (by norm_num)

/-- The lookup manualExitTrade performs, lines 1820-1822: a linear scan of
the monitored trades for a matching tradeId. -/
def manualExitLookup (monitoredTrades : List MonitoredTrade) (tradeId : String) :
    Option MonitoredTrade :=
  monitoredTrades.find? (fun t => t.tradeId == tradeId)

/-- The exit condition manualExitTrade synthesizes for a found trade,
lines 1829-1833: the label is "TP1" (the source comment calls it a
placeholder for manual exit), currentPrice is the trade's currentPrice
with entryPrice as the || fallback, and no targetPrice is set. -/
def manualExitCondition (trade : MonitoredTrade) : ExitCondition :=
  { type := ExitType.TP1
    currentPrice := jsOrQ trade.currentPrice trade.entryPrice
    targetPrice := none
    triggered := true }

/-- A concrete monitored buy position (entry 2400, tp1 2500, tp2 2600,
sl 2350, trailing disabled) whose last observed price is 2505. -/
def buyTrade : MonitoredTrade :=
  { _id := "p5"
    tradeId := "t5"
    userId := "u"
    safeAddress := "safe"
    networkKey := "arbitrum"
    tokenSymbol := "TKN"
    tokenMentioned := "TKN"
    signalMessage := Side.buy
    entryPrice := 2400
    currentPrice := some 2505
    tp1 := 2500
    tp2 := 2600
    sl := 2350
    maxExitTime := 3600000
    entryTxHash := "0xabc"
    entryAmount := 1 / 10
    executedAt := 0
    status := TradeStatus.active
    lastPriceCheck := some 0
    priceCheckCount := 1
    highestPriceSinceEntry := 2505
    trailingStopPrice := 2505 * (99 / 100)
    trailingStopEnabled := false }

/-- C5 counterexample: the condition synthesized for a manual exit of the
concrete buy position carries the kind TP1, and the exit record written
for it is identical to the record written for a genuine tp1 price exit at
2505, so the manual kind is not stored distinctly. -/
theorem c5_manual_kind_counterexample :
    (manualExitCondition buyTrade).type = ExitType.TP1 ∧
    exitDataOf buyTrade (manualExitCondition buyTrade) 0 =
      exitDataOf buyTrade (checkExitConditions buyTrade 2505 0) 0 := by
  constructor
  · rfl
  · simp only [manualExitCondition, checkExitConditions, exitDataOf, jsOrQ, buyTrade]
    norm_num

/-- C5 amended: for every currently monitored position whose tradeId
matches, manualExitTrade synthesizes an exit condition labelled tp1 as a
placeholder (not a distinct manual kind), whose currentPrice is the
position's last observed price when one has been recorded (and is
nonzero, by the || fallback) and otherwise its entryPrice; the exit
record therefore stores the tp1 kind and that price. -/
theorem c5_manual_exit_condition (monitoredTrades : List MonitoredTrade) (tradeId : String)
    (trade : MonitoredTrade) (now : ℤ)
    (hfind : manualExitLookup monitoredTrades tradeId = some trade) :
    trade.tradeId = tradeId ∧
    (exitDataOf trade (manualExitCondition trade) now).exitType = ExitType.TP1 ∧
    (exitDataOf trade (manualExitCondition trade) now).exitPrice =
      jsOrQ trade.currentPrice trade.entryPrice := by
  refine ⟨?_, rfl, rfl⟩
  have h := List.find?_some hfind
  simpa using h

/-- C5 witness: the amended statement evaluated on a registry holding the
concrete buy position, looked up by its tradeId. -/
theorem c5_manual_exit_condition_witness :
    buyTrade.tradeId = "t5" ∧
    (exitDataOf buyTrade (manualExitCondition buyTrade) 0).exitType = ExitType.TP1 ∧
    (exitDataOf buyTrade (manualExitCondition buyTrade) 0).exitPrice =
      jsOrQ buyTrade.currentPrice buyTrade.entryPrice :=
  c5_manual_exit_condition [buyTrade] "t5" buyTrade 0 rfl

/-- updateTrailingStopData, lines 1563-1593: nothing changes when the
trailing stop is disabled; a buy ratchets highestPriceSinceEntry up and
re-arms the stop at 1 percent below a new high; a sell ratchets it down
and re-arms at 1 percent above a new low. -/
def updateTrailingStopData (trade : MonitoredTrade) (currentPrice : ℚ) : MonitoredTrade :=
  if trade.trailingStopEnabled = false then trade
  else
    match trade.signalMessage with
    | Side.buy =>
        if currentPrice > trade.highestPriceSinceEntry then
          { trade with
              highestPriceSinceEntry := currentPrice
              trailingStopPrice := currentPrice * (99 / 100) }
        else trade
    | Side.sell =>
        if currentPrice < trade.highestPriceSinceEntry then
          { trade with
              highestPriceSinceEntry := currentPrice
              trailingStopPrice := currentPrice * (101 / 100) }
        else trade

/-- The state mutation of one successful price observation inside
monitorSingleTrade, lines 1526-1531: record the price and time, bump the
check counter, then run updateTrailingStopData. -/
def applyPriceObservation (trade : MonitoredTrade) (observation : ℚ × ℤ) : MonitoredTrade :=
  updateTrailingStopData
    { trade with
        currentPrice := some observation.1
        lastPriceCheck := some observation.2
        priceCheckCount := trade.priceCheckCount + 1 }
    observation.1

/-- A sequence of successful price observations applied in order. -/
def applyPriceObservations (trade : MonitoredTrade) (observations : List (ℚ × ℤ)) :
    MonitoredTrade :=
  observations.foldl applyPriceObservation trade

/-- monitorSingleTrade up to the exit dispatch, lines 1516-1552: a fetched
price of null, or of 0 (both falsy in the source's guard), returns with no
state change and no exit evaluation; otherwise the observation is applied
and checkExitConditions decides whether an exit is dispatched. -/
def monitorSingleTradeStep (trade : MonitoredTrade) (fetched : Option ℚ) (now : ℤ) :
    MonitoredTrade × Option ExitCondition :=
  match fetched with
  | none => (trade, none)
  | some currentPrice =>
      if currentPrice = 0 then (trade, none)
      else
        let updated := applyPriceObservation trade (currentPrice, now)
        let exitCondition := checkExitConditions updated currentPrice now
        (updated, if exitCondition.triggered = true then some exitCondition else none)

/-- C9: at the price-fetch boundary of the per-position step, a fetched
price of exactly 0 is treated identically to a fetch failure: the step
returns with the position completely unchanged (currentPrice,
lastPriceCheck, priceCheckCount, highestPriceSinceEntry and
trailingStopPrice keep their values) and no exit condition is evaluated,
so such a tick can never trigger any exit. -/
theorem c9_zero_price_skips (trade : MonitoredTrade) (now : ℤ) (fetched : Option ℚ)
    (hbad : fetched = none ∨ fetched = some 0) :
    monitorSingleTradeStep trade fetched now = (trade, none) := by
  rcases hbad with h | h <;> subst h <;> simp [monitorSingleTradeStep]

/-- C9 witness: a zero-price fetch on the concrete buy position at an
arbitrary time changes nothing and dispatches no exit, even though its
maxExitTime has long passed. -/
theorem c9_zero_price_skips_witness :
    monitorSingleTradeStep buyTrade (some 0) 7200000 = (buyTrade, none) :=
  c9_zero_price_skips buyTrade 7200000 (some 0) (Or.inr rfl)

/-- One price observation never changes the side or the trailing-stop
enablement of a position. -/
theorem applyPriceObservation_preserves (trade : MonitoredTrade) (ob : ℚ × ℤ) :
    (applyPriceObservation trade ob).signalMessage = trade.signalMessage ∧
    (applyPriceObservation trade ob).trailingStopEnabled = trade.trailingStopEnabled := by
  obtain ⟨_, _, _, _, _, _, _, side, _, _, _, _, _, _, _, _, _, _, _, _, hp, tsp, en⟩ := trade
  cases side <;> simp only [applyPriceObservation, updateTrailingStopData] <;>
    split_ifs <;> exact ⟨rfl, rfl⟩

/-- One price observation on a buy position: the running high never
drops, and when the trailing stop sits at most 1 percent below the high
it never drops either and ends at most 1 percent below the new high. -/
theorem applyPriceObservation_buy (trade : MonitoredTrade) (ob : ℚ × ℤ)
    (hside : trade.signalMessage = Side.buy) :
    trade.highestPriceSinceEntry ≤ (applyPriceObservation trade ob).highestPriceSinceEntry ∧
    (trade.trailingStopPrice ≤ trade.highestPriceSinceEntry * (99 / 100) →
      trade.trailingStopPrice ≤ (applyPriceObservation trade ob).trailingStopPrice ∧
      (applyPriceObservation trade ob).trailingStopPrice ≤
        (applyPriceObservation trade ob).highestPriceSinceEntry * (99 / 100)) := by
  obtain ⟨_, _, _, _, _, _, _, side, _, _, _, _, _, _, _, _, _, _, _, _, hp, tsp, en⟩ := trade
  cases side
  · simp only [applyPriceObservation, updateTrailingStopData]
    split_ifs with h1 h2
    · exact ⟨le_refl _, fun h => ⟨le_refl _, h⟩⟩
    · refine ⟨le_of_lt h2, fun h => ⟨?_, le_refl _⟩⟩
      have hmul : hp * (99 / 100) ≤ ob.1 * (99 / 100) :=
        mul_le_mul_of_nonneg_right (le_of_lt h2) (by norm_num)
      exact le_trans h hmul
    · exact ⟨le_refl _, fun h => ⟨le_refl _, h⟩⟩
  · simp at hside

/-- One price observation on a sell position: the running low never
rises, and when the trailing stop sits at least 1 percent above the low
it never rises either and ends at least 1 percent above the new low. -/
theorem applyPriceObservation_sell (trade : MonitoredTrade) (ob : ℚ × ℤ)
    (hside : trade.signalMessage = Side.sell) :
    (applyPriceObservation trade ob).highestPriceSinceEntry ≤ trade.highestPriceSinceEntry ∧
    (trade.highestPriceSinceEntry * (101 / 100) ≤ trade.trailingStopPrice →
      (applyPriceObservation trade ob).trailingStopPrice ≤ trade.trailingStopPrice ∧
      (applyPriceObservation trade ob).highestPriceSinceEntry * (101 / 100) ≤
        (applyPriceObservation trade ob).trailingStopPrice) := by
  obtain ⟨_, _, _, _, _, _, _, side, _, _, _, _, _, _, _, _, _, _, _, _, hp, tsp, en⟩ := trade
  cases side
  · simp at hside
  · simp only [applyPriceObservation, updateTrailingStopData]
    split_ifs with h1 h2
    · exact ⟨le_refl _, fun h => ⟨le_refl _, h⟩⟩
    · refine ⟨le_of_lt h2, fun h => ⟨?_, le_refl _⟩⟩
      have hmul : ob.1 * (101 / 100) ≤ hp * (101 / 100) :=
        mul_le_mul_of_nonneg_right (le_of_lt h2) (by norm_num)
      exact le_trans hmul h
    · exact ⟨le_refl _, fun h => ⟨le_refl _, h⟩⟩

/-- Over any observation sequence, a buy position's running high is
non-decreasing, and its trailing stop is non-decreasing and stays within
the 1 percent band whenever it starts within it. -/
theorem foldObservations_buy : ∀ (observations : List (ℚ × ℤ)) (trade : MonitoredTrade),
    trade.signalMessage = Side.buy →
    trade.highestPriceSinceEntry ≤
      (applyPriceObservations trade observations).highestPriceSinceEntry ∧
    (trade.trailingStopPrice ≤ trade.highestPriceSinceEntry * (99 / 100) →
      trade.trailingStopPrice ≤ (applyPriceObservations trade observations).trailingStopPrice ∧
      (applyPriceObservations trade observations).trailingStopPrice ≤
        (applyPriceObservations trade observations).highestPriceSinceEntry * (99 / 100))
  | [], _, _ => ⟨le_refl _, fun h => ⟨le_refl _, h⟩⟩
  | ob :: rest, trade, hside => by
      have hstep := applyPriceObservation_buy trade ob hside
      have hside1 : (applyPriceObservation trade ob).signalMessage = Side.buy :=
        (applyPriceObservation_preserves trade ob).1.trans hside
      have hrest := foldObservations_buy rest (applyPriceObservation trade ob) hside1
      have hfold : applyPriceObservations trade (ob :: rest) =
          applyPriceObservations (applyPriceObservation trade ob) rest := rfl
      rw [hfold]
      refine ⟨le_trans hstep.1 hrest.1, fun h => ?_⟩
      have h1 := hstep.2 h
      have h2 := hrest.2 h1.2
      exact ⟨le_trans h1.1 h2.1, h2.2⟩

/-- Over any observation sequence, a sell position's running low is
non-increasing, and its trailing stop is non-increasing and stays within
the 1 percent band whenever it starts within it. -/
theorem foldObservations_sell : ∀ (observations : List (ℚ × ℤ)) (trade : MonitoredTrade),
    trade.signalMessage = Side.sell →
    (applyPriceObservations trade observations).highestPriceSinceEntry ≤
      trade.highestPriceSinceEntry ∧
    (trade.highestPriceSinceEntry * (101 / 100) ≤ trade.trailingStopPrice →
      (applyPriceObservations trade observations).trailingStopPrice ≤ trade.trailingStopPrice ∧
      (applyPriceObservations trade observations).highestPriceSinceEntry * (101 / 100) ≤
        (applyPriceObservations trade observations).trailingStopPrice)
  | [], _, _ => ⟨le_refl _, fun h => ⟨le_refl _, h⟩⟩
  | ob :: rest, trade, hside => by
      have hstep := applyPriceObservation_sell trade ob hside
      have hside1 : (applyPriceObservation trade ob).signalMessage = Side.sell :=
        (applyPriceObservation_preserves trade ob).1.trans hside
      have hrest := foldObservations_sell rest (applyPriceObservation trade ob) hside1
      have hfold : applyPriceObservations trade (ob :: rest) =
          applyPriceObservations (applyPriceObservation trade ob) rest := rfl
      rw [hfold]
      refine ⟨le_trans hrest.1 hstep.1, fun h => ?_⟩
      have h1 := hstep.2 h
      have h2 := hrest.2 h1.2
      exact ⟨le_trans h2.1 h1.1, h2.2⟩

/-- C8 counterexample: the rehydrated sell position with entry price 100
starts with trailingStopPrice 99 (the buy-side 0.99 initialization); the
first favorable observation at price 99.5 re-arms the stop to
99.5 times 1.01 = 100.495, so for a sell the trailing stop is not
non-increasing: the claim's trailing part fails on the code. -/
theorem c8_sell_trailing_counterexample :
    (rehydrateTrade storedSell).signalMessage = Side.sell ∧
    (rehydrateTrade storedSell).trailingStopPrice <
      (applyPriceObservations (rehydrateTrade storedSell)
        [((199 / 2 : ℚ), (30000 : ℤ))]).trailingStopPrice := by
  constructor
  · rfl
  · norm_num [rehydrateTrade, storedSell, jsOrQ, applyPriceObservations,
      applyPriceObservation, updateTrailingStopData]

/-- C8 amended: over any sequence of successful price updates,
highestPriceSinceEntry is monotonically non-decreasing for a buy position
and non-increasing for a sell position; trailingStopPrice moves only in
the same direction provided it starts within the 1 percent re-arm band of
highestPriceSinceEntry (at most highest times 0.99 for a buy, at least
highest times 1.01 for a sell), a condition every re-arm re-establishes;
the rehydrated initial state satisfies it for a buy but violates it for a
sell, where the first re-arm from the 0.99-initialized stop can raise the
stop. -/
theorem c8_trailing_monotonicity_amended (trade : MonitoredTrade)
    (observations : List (ℚ × ℤ)) :
    (trade.signalMessage = Side.buy →
      trade.highestPriceSinceEntry ≤
        (applyPriceObservations trade observations).highestPriceSinceEntry ∧
      (trade.trailingStopPrice ≤ trade.highestPriceSinceEntry * (99 / 100) →
        trade.trailingStopPrice ≤
          (applyPriceObservations trade observations).trailingStopPrice ∧
        (applyPriceObservations trade observations).trailingStopPrice ≤
          (applyPriceObservations trade observations).highestPriceSinceEntry * (99 / 100))) ∧
    (trade.signalMessage = Side.sell →
      (applyPriceObservations trade observations).highestPriceSinceEntry ≤
        trade.highestPriceSinceEntry ∧
      (trade.highestPriceSinceEntry * (101 / 100) ≤ trade.trailingStopPrice →
        (applyPriceObservations trade observations).trailingStopPrice ≤
          trade.trailingStopPrice ∧
        (applyPriceObservations trade observations).highestPriceSinceEntry * (101 / 100) ≤
          (applyPriceObservations trade observations).trailingStopPrice)) :=
  ⟨fun h => foldObservations_buy observations trade h,
   fun h => foldObservations_sell observations trade h⟩

/-- C8 witness: the amended monotonicity evaluated on the concrete buy
position (which starts exactly on the 1 percent band) over two
observations. -/
theorem c8_trailing_monotonicity_witness :
    buyTrade.highestPriceSinceEntry ≤
      (applyPriceObservations buyTrade
        [((2600 : ℚ), (60000 : ℤ)), ((2550 : ℚ), (90000 : ℤ))]).highestPriceSinceEntry ∧
    buyTrade.trailingStopPrice ≤
      (applyPriceObservations buyTrade
        [((2600 : ℚ), (60000 : ℤ)), ((2550 : ℚ), (90000 : ℤ))]).trailingStopPrice := by
  have h := (c8_trailing_monotonicity_amended buyTrade
    [((2600 : ℚ), (60000 : ℤ)), ((2550 : ℚ), (90000 : ℤ))]).1 rfl
  exact ⟨h.1, (h.2 (le_refl _)).1⟩

/-- The mutable state of TradeMonitoringService, lines 1275-1284: the
monitoredTrades map (embedded as an insertion-ordered association list,
matching JavaScript Map semantics), the two interval handles (none when
null) and the isRunning flag. -/
structure ServiceState where
  monitoredTrades : List (String × MonitoredTrade)
  monitoringInterval : Option Unit
  dbSyncInterval : Option Unit
  isRunning : Bool
deriving DecidableEq, Repr

/-- JavaScript Map.set: replace in place when the key exists, append
otherwise. -/
def mapSet : List (String × MonitoredTrade) → String → MonitoredTrade →
    List (String × MonitoredTrade)
  | [], k, v => [(k, v)]
  | kv :: rest, k, v => if kv.1 == k then (k, v) :: rest else kv :: mapSet rest k v

/-- JavaScript Map.get: the value at a key, when present. -/
def mapLookup (m : List (String × MonitoredTrade)) (k : String) : Option MonitoredTrade :=
  (m.find? (fun kv => kv.1 == k)).map Prod.snd

/-- Map.set followed by Map.get at the same key yields the set value. -/
theorem mapSet_mapLookup : ∀ (m : List (String × MonitoredTrade)) (k : String)
    (v : MonitoredTrade), mapLookup (mapSet m k v) k = some v
  | [], k, v => by simp [mapSet, mapLookup]
  | kv :: rest, k, v => by
      by_cases h : kv.1 == k
      · simp [mapSet, mapLookup, h]
      · simp only [mapSet, h, if_false, mapLookup, List.find?]
        exact mapSet_mapLookup rest k v

/-- The shape of the tradeData request passed to addTradeToMonitoring,
with the fields the construction at lines 1459-1483 reads; fields the
source guards with || fallbacks are optional. -/
structure TradeData where
  tradeId : String
  userId : String
  safeAddress : String
  networkKey : String
  tokenSymbol : Option String
  tokenMentioned : String
  signalMessage : Side
  entryPrice : Option ℚ
  currentPrice : ℚ
  tp1 : ℚ
  tp2 : ℚ
  sl : ℚ
  maxExitTime : ℤ
  entryTxHash : Option String
  entryAmount : Option ℚ
deriving DecidableEq, Repr

/-- The MonitoredTrade literal addTradeToMonitoring builds, lines
1459-1483: status active, executedAt the Date taken now, counters zeroed,
and the same 0.99 trailing-stop initialization as the rehydration sites,
with no case on the side and no validation of any field. -/
def buildMonitoredTrade (tradeData : TradeData) (mongoId : String) (now : ℤ) : MonitoredTrade :=
  { _id := mongoId
    tradeId := tradeData.tradeId
    userId := tradeData.userId
    safeAddress := tradeData.safeAddress
    networkKey := tradeData.networkKey
    tokenSymbol := jsOrS tradeData.tokenSymbol tradeData.tokenMentioned
    tokenMentioned := tradeData.tokenMentioned
    signalMessage := tradeData.signalMessage
    entryPrice := jsOrQ tradeData.entryPrice tradeData.currentPrice
    currentPrice := none
    tp1 := tradeData.tp1
    tp2 := tradeData.tp2
    sl := tradeData.sl
    maxExitTime := tradeData.maxExitTime
    entryTxHash := jsOrS tradeData.entryTxHash ""
    entryAmount := jsOrQ tradeData.entryAmount 0
    executedAt := now
    status := TradeStatus.active
    lastPriceCheck := none
    priceCheckCount := 0
    highestPriceSinceEntry := jsOrQ tradeData.entryPrice tradeData.currentPrice
    trailingStopPrice := jsOrQ tradeData.entryPrice tradeData.currentPrice * (99 / 100)
    trailingStopEnabled := true }

/-- addTradeToMonitoring, lines 1453-1495: store the trade first
(storeResult is the outcome of databaseService.storeExecutedTrade: the
assigned mongoId, or a rejection, which the catch block rethrows leaving
the state untouched), then set the built trade in the monitoredTrades
map.  No field of the request is validated. -/
def addTradeToMonitoring (s : ServiceState) (tradeData : TradeData) (now : ℤ)
    (storeResult : Except String String) : Except String ServiceState :=
  match storeResult with
  | Except.error e => Except.error e
  | Except.ok mongoId =>
      Except.ok { s with
        monitoredTrades :=
          mapSet s.monitoredTrades mongoId (buildMonitoredTrade tradeData mongoId now) }

/-- stop, lines 1331-1352: an early return when isRunning is already
false; otherwise both intervals are cleared, isRunning is set to false
and the monitoredTrades map is cleared. -/
def stopService (s : ServiceState) : ServiceState :=
  if s.isRunning = false then s
  else
    { monitoredTrades := []
      monitoringInterval := none
      dbSyncInterval := none
      isRunning := false }

/-- A freshly constructed service: empty map, no timers, not running. -/
def freshService : ServiceState :=
  { monitoredTrades := []
    monitoringInterval := none
    dbSyncInterval := none
    isRunning := false }

/-- A registration request whose entryAmount is the negative number -5,
violating the data-model invariant that entryAmount is positive. -/
def negativeRequest : TradeData :=
  { tradeId := "t6"
    userId := "u"
    safeAddress := "safe"
    networkKey := "arbitrum"
    tokenSymbol := some "TKN"
    tokenMentioned := "TKN"
    signalMessage := Side.buy
    entryPrice := some 2400
    currentPrice := 2400
    tp1 := 2500
    tp2 := 2600
    sl := 2350
    maxExitTime := 3600000
    entryTxHash := some "0xabc"
    entryAmount := some (-5) }

/-- C6 counterexample: registering the request with entryAmount -5
returns no error when the store insert succeeds, and the registry gains a
record for it (and so does the durable store, which was written first):
the claimed rejection of invariant-violating requests does not exist. -/
theorem c6_no_validation_counterexample :
    negativeRequest.entryAmount = some (-5) ∧
    (addTradeToMonitoring freshService negativeRequest 0 (Except.ok "m1")).toOption.map
        (fun s => s.monitoredTrades.length) = some 1 := by
  constructor
  · rfl
  · rfl

/-- C6 amended: addTradeToMonitoring performs no invariant validation:
every request, including one with a non-positive entryPrice, entryAmount,
tp1, tp2 or sl, is stored and then inserted into the registry whenever
the store insert succeeds, with the registry record carrying the
requested (possibly negative) amount unchanged; the call errors exactly
when the store insert fails, and then the registry is untouched. -/
theorem c6_register_rejects_nothing (s : ServiceState) (tradeData : TradeData) (now : ℤ)
    (mongoId errMsg : String) :
    (addTradeToMonitoring s tradeData now (Except.ok mongoId)).toOption.map
        (fun s1 => mapLookup s1.monitoredTrades mongoId) =
      some (some (buildMonitoredTrade tradeData mongoId now)) ∧
    (buildMonitoredTrade tradeData mongoId now).entryAmount = jsOrQ tradeData.entryAmount 0 ∧
    addTradeToMonitoring s tradeData now (Except.error errMsg) = Except.error errMsg := by
  refine ⟨?_, rfl, rfl⟩
  simp only [addTradeToMonitoring, Except.toOption, Option.map]
  rw [mapSet_mapLookup]

/-- C7 counterexample: a position added to monitoring without Start ever
having been called leaves isRunning false, so stop takes its early-return
path and after it returns the registry still holds the position. -/
theorem c7_stop_counterexample :
    (addTradeToMonitoring freshService negativeRequest 0 (Except.ok "m1")).toOption.map
        (fun s1 => ((stopService s1).monitoredTrades.length, (stopService s1).isRunning)) =
      some (1, false) := by
  rfl

/-- C7 amended: when the service is running, stop cancels both timers,
clears the registry and sets isRunning to false; but when isRunning is
false stop returns immediately and changes nothing, so positions added to
monitoring without Start survive a call to stop. -/
theorem c7_stop_behavior (s : ServiceState) :
    (s.isRunning = true →
      (stopService s).monitoredTrades = [] ∧
      (stopService s).monitoringInterval = none ∧
      (stopService s).dbSyncInterval = none ∧
      (stopService s).isRunning = false) ∧
    (s.isRunning = false → stopService s = s) := by
  constructor
  · intro h
    simp [stopService, h]
  · intro h
    simp [stopService, h]

/-- A concrete running service holding one monitored position, with both
timers live. -/
def runningService : ServiceState :=
  { monitoredTrades := [("p5", buyTrade)]
    monitoringInterval := some ()
    dbSyncInterval := some ()
    isRunning := true }

/-- C7 witness: stop evaluated on the concrete running service holding
one position, and on the concrete fresh service. -/
theorem c7_stop_behavior_witness :
    ((stopService runningService).monitoredTrades = [] ∧
      (stopService runningService).monitoringInterval = none ∧
      (stopService runningService).dbSyncInterval = none ∧
      (stopService runningService).isRunning = false) ∧
    stopService freshService = freshService :=
  ⟨(c7_stop_behavior runningService).1 rfl, (c7_stop_behavior freshService).2 rfl⟩

/-- The atomic steps of executeTradeExit, lines 1703-1786, at the
granularity of its await points: the synchronous registry delete, the
awaited executor call and the awaited terminal store update. -/
inductive ExitStep
  | removeFromRegistry
  | callExecutor
  | updateStatus
deriving DecidableEq, Repr

/-- The step sequence of one executeTradeExit call as the source performs
it, lines 1712-1756: delete from monitoredTrades (the Boolean result of
the delete is discarded and no branch aborts), then the executor call,
then updateTradeStatus. -/
def executeTradeExitProgram : List ExitStep :=
  [ExitStep.removeFromRegistry, ExitStep.callExecutor, ExitStep.updateStatus]

/-- Interleaving state of the engine for the exit path: the registry
keyed by position id, the in-flight executeTradeExit tasks (id plus
remaining steps), and the log of terminal updateTradeStatus invocations
by id. -/
structure EngineTrace where
  registry : List String
  tasks : List (String × List ExitStep)
  statusUpdates : List String
deriving DecidableEq, Repr

/-- Effect of one executeTradeExit step on the engine state: the registry
delete erases the id (ignoring whether it was present, as the source
does), the executor call touches no shared state, and the store update
appends one terminal updateTradeStatus invocation for the id. -/
def execExitStep (id : String) (step : ExitStep) (s : EngineTrace) : EngineTrace :=
  match step with
  | ExitStep.removeFromRegistry => { s with registry := s.registry.erase id }
  | ExitStep.callExecutor => s
  | ExitStep.updateStatus => { s with statusUpdates := s.statusUpdates ++ [id] }

/-- Scheduler events: dispatchExit models a caller (a price-check tick
whose triggered condition reached executeTradeExit, or a manual exit
whose lookup found the trade) starting executeTradeExit for a position it
observes in the registry at dispatch time — when the id is absent nothing
is dispatched; runTask k runs the next pending step of in-flight task
k. -/
inductive SchedEvent
  | dispatchExit (id : String)
  | runTask (k : ℕ)
deriving DecidableEq, Repr

/-- One scheduler transition of the engine. -/
def engineStep (s : EngineTrace) (e : SchedEvent) : EngineTrace :=
  match e with
  | SchedEvent.dispatchExit id =>
      if id ∈ s.registry then
        { s with tasks := s.tasks ++ [(id, executeTradeExitProgram)] }
      else s
  | SchedEvent.runTask k =>
      match s.tasks.get? k with
      | some (id, step :: rest) =>
          let s1 := execExitStep id step s
          { s1 with tasks := s1.tasks.set k (id, rest) }
      | _ => s

/-- A run of the engine over a schedule of events. -/
def runEngine (s : EngineTrace) (events : List SchedEvent) : EngineTrace :=
  events.foldl engineStep s

/-- The interleaving in which a price-check tick and a manual exit both
observe position p1 in the registry and dispatch executeTradeExit before
either runs, then each runs to completion. -/
def overlappingExitSchedule : List SchedEvent :=
  [SchedEvent.dispatchExit "p1", SchedEvent.dispatchExit "p1",
   SchedEvent.runTask 0, SchedEvent.runTask 0, SchedEvent.runTask 0,
   SchedEvent.runTask 1, SchedEvent.runTask 1, SchedEvent.runTask 1]

/-- C1: under the overlapping schedule, both callers that observed p1
proceed past the registry removal into the exit path — the source
discards the result of monitoredTrades.delete and executeTradeExit never
aborts — so the terminal updateTradeStatus is invoked twice for the same
id, violating the at-most-one-exit property the code's own comment at
line 1712 intends the delete to provide. -/
theorem c1_double_terminal_update :
    (runEngine { registry := ["p1"], tasks := [], statusUpdates := [] }
        overlappingExitSchedule).statusUpdates = ["p1", "p1"] := by
  rfl

/-- The two terminal outcomes of the exit path. -/
inductive ExitOutcome
  | exited
  | failed
deriving DecidableEq, Repr

/-- Control flow of executeTradeExit, lines 1703-1786, with its three
awaited collaborator calls abstracted by whether each resolves (true) or
rejects (false): the try block runs the executor and then the exited
status write; any rejection there enters the catch block, which writes
status failed — a rejection of that write propagates out of
executeTradeExit. -/
def executeTradeExitFlow (execOk updExitedOk updFailedOk : Bool) : Except Unit ExitOutcome :=
  if execOk = true ∧ updExitedOk = true then Except.ok ExitOutcome.exited
  else if updFailedOk = true then Except.ok ExitOutcome.failed
  else Except.error ()

/-- manualExitTrade, lines 1815-1842: scan for the tradeId; when absent
return false; when found run executeTradeExit and return true, the catch
block returning false exactly when executeTradeExit rejected. -/
def manualExitTrade (monitoredTrades : List MonitoredTrade) (tradeId : String)
    (execOk updExitedOk updFailedOk : Bool) : Bool :=
  match manualExitLookup monitoredTrades tradeId with
  | none => false
  | some _ =>
      match executeTradeExitFlow execOk updExitedOk updFailedOk with
      | Except.ok _ => true
      | Except.error _ => false

/-- C10: manualExitTrade returns false when no monitored position has the
tradeId; when one is found it returns true exactly when the executor call
and the exited status write both succeed or the failure-path status write
succeeds — in particular it returns true even when the reversing trade or
the terminal store update fails, and returns false on a found trade only
when the failure-path status write itself also rejects. -/
theorem c10_manual_exit_return (monitoredTrades : List MonitoredTrade) (tradeId : String)
    (execOk updExitedOk updFailedOk : Bool) :
    (manualExitLookup monitoredTrades tradeId = none →
      manualExitTrade monitoredTrades tradeId execOk updExitedOk updFailedOk = false) ∧
    (∀ trade, manualExitLookup monitoredTrades tradeId = some trade →
      (manualExitTrade monitoredTrades tradeId execOk updExitedOk updFailedOk = true ↔
        (execOk = true ∧ updExitedOk = true) ∨ updFailedOk = true)) := by
  constructor
  · intro h
    simp [manualExitTrade, h]
  · intro trade h
    simp only [manualExitTrade, h, executeTradeExitFlow]
    split_ifs with h1 h2 <;> simp_all

/-- C10 witness: on the empty registry the manual exit reports false; on
the registry holding the concrete buy position, a manual exit whose
executor call rejects but whose failure-path status write succeeds still
reports true. -/
theorem c10_manual_exit_return_witness :
    manualExitTrade [] "t5" true true true = false ∧
    manualExitTrade [buyTrade] "t5" false true true = true :=
  ⟨(c10_manual_exit_return [] "t5" true true true).1 rfl,
   ((c10_manual_exit_return [buyTrade] "t5" false true true).2 buyTrade rfl).mpr
     (Or.inr rfl)⟩

end SpotTrading
